import Mathlib

/-!
Shallow embedding of the code-debugging front-end (src/main.py).

The program is a single-page UI that sends a (language, version, source)
triple to the Piston execute endpoint and renders the JSON response.
We embed, faithfully to the source:
  * the static tables (PISTON_URL, LANGUAGE_OPTIONS, EXAMPLE_CODE);
  * the backend function debug_code (lines 70-93), with the behaviour of
    the HTTP layer abstracted into an explicit HttpOutcome argument and
    the st.error side effect recorded in the returned record;
  * the button transitions (clear lines 151-153, load-example 157-159,
    submit 162-173) as functions on an explicit SessionState;
  * the output column (lines 182-238) as a pure view derivation.

Python dictionary accesses such as result.get(k, d) are rendered through
Option types; Python truthiness of an optional string (None or empty
string is falsy) is the function strTruthy below.
-/

/-- One stage dictionary of a Piston response: optional stdout, stderr and
exit code; a missing key is `none`. -/
structure StageResult where
  stdout : Option String
  stderr : Option String
  code : Option Int
deriving DecidableEq

/-- A parsed Piston response body: optional compile and run stages
(result.get with default empty dict in the source). -/
structure PistonResponse where
  compile : Option StageResult
  run : Option StageResult
deriving DecidableEq

/-- URL of the execute endpoint (line 6). -/
def PISTON_URL : String := "https://emkc.org/api/v2/piston/execute"

/-- Keys of SUPPORTED_LANGUAGES in insertion order (lines 7-17). -/
def LANGUAGE_OPTIONS : List String :=
  ["python", "javascript", "java", "c", "cpp", "go", "rust", "bash"]

/-- EXAMPLE_CODE dictionary (lines 20-67), as a lookup; literal braces of
the snippets are written with hexadecimal escapes. -/
def EXAMPLE_CODE : String → Option String
  | "python" => some "def greet(name):\n  print(f\"Hello, \x7bname\x7d!\")\n\ngreet(\"Streamlit\")"
  | "javascript" => some "function greet(name) \x7b\n  console.log(`Hello, $\x7bname\x7d!`);\n\x7d\n\ngreet(\"Streamlit\");"
  | "java" => some "\npublic class HelloWorld \x7b\n    public static void main(String[] args) \x7b\n        String name = \"Streamlit\";\n        System.out.println(\"Hello, \" + name + \"!\");\n    \x7d\n\x7d\n"
  | "c" => some "\n#include <stdio.h>\n\nint main() \x7b\n   char name[] = \"Streamlit\";\n   printf(\"Hello, %s!\\n\", name);\n   return 0;\n\x7d\n"
  | "cpp" => some "\n#include <iostream>\n#include <string>\n\nint main() \x7b\n    std::string name = \"Streamlit\";\n    std::cout << \"Hello, \" << name << \"!\" << std::endl;\n    return 0;\n\x7d\n"
  | "go" => some "\npackage main\n\nimport \"fmt\"\n\nfunc main() \x7b\n    name := \"Streamlit\"\n    fmt.Printf(\"Hello, %s!\\n\", name)\n\x7d\n"
  | "rust" => some "\nfn main() \x7b\n    let name = \"Streamlit\";\n    println!(\"Hello, \x7b\x7d!\", name);\n\x7d\n"
  | "bash" => some "name=\"Streamlit\"\necho \"Hello, $name!\""
  | _ => none

/-- Default of EXAMPLE_CODE.get when the selected language has no entry
(line 158). -/
def noExampleText : String := "# No example available for this language."

/-- A file entry of the request payload. -/
structure FileEntry where
  content : String
deriving DecidableEq

/-- The request payload built at lines 73-75. -/
structure Payload where
  language : String
  version : String
  files : List FileEntry
  stdin : String
  args : List String
  compile_timeout : Int
  run_timeout : Int
  compile_memory_limit : Int
  run_memory_limit : Int
deriving DecidableEq

/-- The single outbound HTTP call of line 77: endpoint, JSON payload, and
the client-side network timeout in seconds. -/
structure OutboundRequest where
  url : String
  payload : Payload
  timeoutSeconds : Int
deriving DecidableEq

/-- Outcome of the underlying HTTP call, abstracting the requests library:
a 2xx response whose body parses (`ok`), a requests Timeout, any other
RequestException (carrying the printed exception text and the optional
message field extracted from the error body at lines 85-88, `none`
whenever that inner extraction fails), or any other exception. -/
inductive HttpOutcome where
  | ok (body : PistonResponse)
  | timeoutExc
  | requestExc (excText : String) (apiMessage : Option String)
  | otherExc (excText : String)
deriving DecidableEq

/-- Text of st.error at line 81. -/
def timeoutBanner : String := "❌ Error: The request to the Piston API timed out."

/-- Text of st.error at line 89: the base message of line 84 with the
optional API message of line 87 appended. -/
def transportBanner (excText : String) (apiMessage : Option String) : String :=
  "❌ Error communicating with the Piston API: " ++ excText ++
    (match apiMessage with
     | some m => "\nAPI Message: " ++ m
     | none => "")

/-- Text of st.error at line 92. -/
def unexpectedBanner (excText : String) : String :=
  "❌ An unexpected error occurred: " ++ excText

/-- What one call of debug_code does: the request it issues, the Python
return value (parsed JSON or None), and the st.error banner it shows. -/
structure DebugReturn where
  request : OutboundRequest
  result : Option PistonResponse
  errorShown : Option String
deriving DecidableEq

/-- debug_code (lines 70-93): builds the payload, issues one call with
timeout 15, returns response.json() on success and None on every
exception path, showing a class-specific st.error banner. -/
def debug_code (language version code : String) (outcome : HttpOutcome) : DebugReturn :=
  let piston_lang := language
  let payload : Payload :=
    { language := piston_lang, version := version, files := [{ content := code }],
      stdin := "", args := [], compile_timeout := 10000, run_timeout := 3000,
      compile_memory_limit := -1, run_memory_limit := -1 }
  let request : OutboundRequest := { url := PISTON_URL, payload := payload, timeoutSeconds := 15 }
  match outcome with
  | .ok body => { request := request, result := some body, errorShown := none }
  | .timeoutExc => { request := request, result := none, errorShown := some timeoutBanner }
  | .requestExc e api => { request := request, result := none, errorShown := some (transportBanner e api) }
  | .otherExc e => { request := request, result := none, errorShown := some (unexpectedBanner e) }

/-- True when the outcome is one of the three exception paths. -/
def isFailure : HttpOutcome → Bool
  | .ok _ => false
  | _ => true

/-- Session state (lines 96-101 and 173): selected language, code buffer,
stored result dict, and the language remembered for that result. -/
structure SessionState where
  last_language : String
  code_input : String
  last_debug_result : Option PistonResponse
  last_language_run : Option String
deriving DecidableEq

/-- Characters stripped by the Python str.strip() call of line 164. -/
def pyWhitespace (c : Char) : Bool :=
  c = ' ' || c = '\t' || c = '\n' || c = '\r' || c = '\x0b' || c = '\x0c'

/-- `not code_to_run.strip()` of line 164: every character is whitespace
(in particular the empty string). -/
def strippedEmpty (s : String) : Bool := s.toList.all pyWhitespace

/-- Text of the st.toast warning at line 165. -/
def warnToast : String := "⚠️ Please enter some code to debug."

/-- Language selectbox write-back (lines 116-124). -/
def selectLanguage (s : SessionState) (lang : String) : SessionState :=
  { s with last_language := lang }

/-- Clear-button handler (lines 151-153). -/
def clearTransition (s : SessionState) : SessionState :=
  { s with code_input := "", last_debug_result := none }

/-- Load-example-button handler (lines 157-159). -/
def exampleTransition (s : SessionState) : SessionState :=
  { s with code_input := (EXAMPLE_CODE s.last_language).getD noExampleText,
           last_debug_result := none }

/-- Everything one click of the debug button produces: the next state,
whether debug_code was invoked, the transient toast, and the transient
error banner shown from inside debug_code. -/
structure SubmitEffect where
  state : SessionState
  clientCalled : Bool
  toast : Option String
  errorBanner : Option String
deriving DecidableEq

/-- Debug-button handler (lines 162-173), the network behaviour passed in
as an HttpOutcome. -/
def submitTransition (s : SessionState) (o : HttpOutcome) : SubmitEffect :=
  if strippedEmpty s.code_input then
    { state := s, clientCalled := false, toast := some warnToast, errorBanner := none }
  else
    let ret := debug_code s.last_language "*" s.code_input o
    { state := { s with last_debug_result := ret.result,
                        last_language_run := some s.last_language },
      clientCalled := true, toast := none, errorBanner := ret.errorShown }

/-- Python truthiness of an optional string: None and "" are falsy. -/
def strTruthy : Option String → Bool
  | none => false
  | some s => !(s == "")

/-- result.get(stage, dict()).get("stdout") as an Option. -/
def stageStdout (stage : Option StageResult) : Option String := stage.bind StageResult.stdout

/-- result.get(stage, dict()).get("stderr") as an Option. -/
def stageStderr (stage : Option StageResult) : Option String := stage.bind StageResult.stderr

/-- result.get(stage, dict()).get("code") as an Option (no default). -/
def stageCode (stage : Option StageResult) : Option Int := stage.bind StageResult.code

/-- compile_ok and run_ok of lines 189-190: the exit code with dictionary
default 0 compares equal to 0. -/
def stageOkDefault0 (stage : Option StageResult) : Bool :=
  ((stageCode stage).getD 0) == 0

/-- overall_success of line 191. -/
def overall_success (r : PistonResponse) : Bool :=
  stageOkDefault0 r.compile && stageOkDefault0 r.run

/-- Kind of status box opening the output column: st.info for the neutral
prompt, st.success, or st.error. -/
inductive OutBanner where
  | info
  | success
  | errorBox
deriving DecidableEq

/-- The exit-code line of a stage section: st.caption, st.warning or
st.error, carrying the displayed optional exit code. -/
inductive ExitLine where
  | captionLine (code : Option Int)
  | warningLine (code : Option Int)
  | errorLine (code : Option Int)
deriving DecidableEq

/-- One rendered stage expander: expansion flag, the stdout and stderr
code blocks when shown, and the exit-code line. -/
structure StageSection where
  expanded : Bool
  stdoutBlock : Option String
  stderrBlock : Option String
  exitLine : ExitLine
deriving DecidableEq

/-- The rendered output column. -/
structure OutputView where
  banner : OutBanner
  compileSection : Option StageSection
  runSection : Option StageSection
  noOutputNotice : Bool
deriving DecidableEq

/-- has_compile_output and has_run_output (lines 200 and 220): the stage
dictionary is truthy and its stdout or stderr is truthy. -/
def hasOutput (stage : Option StageResult) : Bool :=
  match stage with
  | none => false
  | some sr => strTruthy sr.stdout || strTruthy sr.stderr

/-- Banner of lines 193-196. -/
def bannerOf (r : PistonResponse) : OutBanner :=
  if overall_success r then OutBanner.success else OutBanner.errorBox

/-- Compilation stage expander (lines 199-215): present only when there is
output; exit line is st.caption exactly when the code equals 0, st.warning
otherwise. -/
def compileSectionOf (r : PistonResponse) : Option StageSection :=
  if hasOutput r.compile then
    some { expanded := !stageOkDefault0 r.compile || strTruthy (stageStdout r.compile),
           stdoutBlock := if strTruthy (stageStdout r.compile) then stageStdout r.compile else none,
           stderrBlock := if strTruthy (stageStderr r.compile) then stageStderr r.compile else none,
           exitLine := if stageCode r.compile = some 0 then
               ExitLine.captionLine (stageCode r.compile)
             else
               ExitLine.warningLine (stageCode r.compile) }
  else none

/-- Runtime stage expander (lines 219-235): present only when there is
output; exit line is st.caption exactly when the code equals 0, st.error
otherwise. -/
def runSectionOf (r : PistonResponse) : Option StageSection :=
  if hasOutput r.run then
    some { expanded := !stageOkDefault0 r.run || strTruthy (stageStdout r.run),
           stdoutBlock := if strTruthy (stageStdout r.run) then stageStdout r.run else none,
           stderrBlock := if strTruthy (stageStderr r.run) then stageStderr r.run else none,
           exitLine := if stageCode r.run = some 0 then
               ExitLine.captionLine (stageCode r.run)
             else
               ExitLine.errorLine (stageCode r.run) }
  else none

/-- Output column (lines 182-238) as a pure function of the stored result:
neutral info prompt when it is None, otherwise banner, the two stage
sections, and the no-output notice when both sections are suppressed. -/
def deriveView : Option PistonResponse → OutputView
  | none =>
    { banner := OutBanner.info, compileSection := none, runSection := none,
      noOutputNotice := false }
  | some r =>
    { banner := bannerOf r,
      compileSection := compileSectionOf r,
      runSection := runSectionOf r,
      noOutputNotice := !hasOutput r.run && !hasOutput r.compile }

/-- The formula of spec section 3, written from the spec words, to compare
with overall_success: compile exit code 0 or absent, and run exit code 0. -/
def specOverallSuccess (r : PistonResponse) : Prop :=
  (stageCode r.compile = none ∨ stageCode r.compile = some 0) ∧ stageCode r.run = some 0

instance (r : PistonResponse) : Decidable (specOverallSuccess r) := by
  unfold specOverallSuccess
  infer_instance

/-- A concrete response exercising both stage sections: compile stage with
stdout and exit code 1, run stage with stdout and exit code 0. -/
def c10resp : PistonResponse :=
  { compile := some { stdout := some "warn", stderr := none, code := some 1 },
    run := some { stdout := some "out", stderr := none, code := some 0 } }

/-! ## Helper lemmas -/

theorem exampleBuffer_not_blank (lang : String) :
    strippedEmpty ((EXAMPLE_CODE lang).getD noExampleText) = false := by
  unfold EXAMPLE_CODE
  split <;> decide

theorem submit_blank (s : SessionState) (o : HttpOutcome)
    (h : strippedEmpty s.code_input = true) :
    submitTransition s o =
      { state := s, clientCalled := false, toast := some warnToast, errorBanner := none } := by
  unfold submitTransition
  rw [h]
  rfl

theorem submit_nonblank (s : SessionState) (o : HttpOutcome)
    (h : strippedEmpty s.code_input = false) :
    submitTransition s o =
      { state := { s with last_debug_result := (debug_code s.last_language "*" s.code_input o).result,
                          last_language_run := some s.last_language },
        clientCalled := true, toast := none,
        errorBanner := (debug_code s.last_language "*" s.code_input o).errorShown } := by
  unfold submitTransition
  rw [h]
  rfl

theorem okDefault_iff (x : Option Int) :
    ((x.getD 0) == 0) = true ↔ (x = none ∨ x = some 0) := by
  cases x <;> simp

theorem overall_success_iff (r : PistonResponse) :
    overall_success r = true ↔
      ((stageCode r.compile = none ∨ stageCode r.compile = some 0) ∧
       (stageCode r.run = none ∨ stageCode r.run = some 0)) := by
  unfold overall_success stageOkDefault0
  rw [Bool.and_eq_true, okDefault_iff, okDefault_iff]

theorem getElem_of_prefix2 (p q r : List Char) (i : Nat) (h : i < p.length) :
    ((p ++ q) ++ r)[i]? = p[i]? := by
  have h2 : i < (p ++ q).length := by
    rw [List.length_append]
    exact Nat.lt_of_lt_of_le h (Nat.le_add_right _ _)
  rw [List.getElem?_append_left h2, List.getElem?_append_left h]

theorem transportBanner_data7 (e : String) (api : Option String) :
    (transportBanner e api).data[7]? = some ' ' := by
  unfold transportBanner
  simp only [String.data_append]
  rw [getElem_of_prefix2 _ _ _ 7 (by decide)]
  decide

theorem transportBanner_data2 (e : String) (api : Option String) :
    (transportBanner e api).data[2]? = some 'E' := by
  unfold transportBanner
  simp only [String.data_append]
  rw [getElem_of_prefix2 _ _ _ 2 (by decide)]
  decide

theorem unexpectedBanner_data2 (e : String) :
    (unexpectedBanner e).data[2]? = some 'A' := by
  unfold unexpectedBanner
  simp only [String.data_append]
  rw [List.getElem?_append_left (by decide)]
  decide

theorem timeout_ne_transport (e : String) (api : Option String) :
    timeoutBanner ≠ transportBanner e api := by
  intro he
  have h7 : timeoutBanner.data[7]? = (transportBanner e api).data[7]? := by rw [he]
  rw [transportBanner_data7] at h7
  exact absurd h7 (by decide)

theorem timeout_ne_unexpected (e : String) :
    timeoutBanner ≠ unexpectedBanner e := by
  intro he
  have h2 : timeoutBanner.data[2]? = (unexpectedBanner e).data[2]? := by rw [he]
  rw [unexpectedBanner_data2] at h2
  exact absurd h2 (by decide)

theorem transport_ne_unexpected (e : String) (api : Option String) (f : String) :
    transportBanner e api ≠ unexpectedBanner f := by
  intro he
  have h2 : (transportBanner e api).data[2]? = (unexpectedBanner f).data[2]? := by rw [he]
  rw [transportBanner_data2, unexpectedBanner_data2] at h2
  exact absurd h2 (by decide)

/-! ## Claim theorems -/

/-- Claim C1 counterexample: on the response whose run stage has stdout
but no exit code, the code shows the success banner although the formula
of the claim (run exit code present and 0) does not hold. -/
theorem c1_counterexample :
    (deriveView (some ⟨none, some ⟨some "hi", none, none⟩⟩)).banner = OutBanner.success ∧
    ¬ specOverallSuccess ⟨none, some ⟨some "hi", none, none⟩⟩ :=
  ⟨rfl, by decide⟩

/-- Claim C1 (amended): the success banner is shown iff the compile exit
code is 0 or absent AND the run exit code is 0 or absent; otherwise the
failure banner is shown. -/
theorem c1_success_banner (r : PistonResponse) :
    ((deriveView (some r)).banner = OutBanner.success ↔
      ((stageCode r.compile = none ∨ stageCode r.compile = some 0) ∧
       (stageCode r.run = none ∨ stageCode r.run = some 0))) ∧
    ((deriveView (some r)).banner = OutBanner.errorBox ↔
      ¬((stageCode r.compile = none ∨ stageCode r.compile = some 0) ∧
        (stageCode r.run = none ∨ stageCode r.run = some 0))) := by
  have h := overall_success_iff r
  cases hb : overall_success r with
  | true =>
    have hband : (deriveView (some r)).banner = OutBanner.success := by
      show bannerOf r = _
      unfold bannerOf
      rw [hb]
      rfl
    refine ⟨⟨fun _ => h.mp hb, fun _ => hband⟩, ⟨fun hc => ?_, fun hn => absurd (h.mp hb) hn⟩⟩
    rw [hband] at hc
    exact absurd hc (by decide)
  | false =>
    have hA : ¬((stageCode r.compile = none ∨ stageCode r.compile = some 0) ∧
        (stageCode r.run = none ∨ stageCode r.run = some 0)) := by
      intro hou
      rw [h.mpr hou] at hb
      exact Bool.noConfusion hb
    have hband : (deriveView (some r)).banner = OutBanner.errorBox := by
      show bannerOf r = _
      unfold bannerOf
      rw [hb]
      rfl
    refine ⟨⟨fun hc => ?_, fun hou => absurd hou hA⟩, ⟨fun _ => hA, fun _ => hband⟩⟩
    rw [hband] at hc
    exact absurd hc (by decide)

/-- Claim C5: the clear transition empties the code buffer, drops the
stored outcome, and leaves the selected language unchanged. -/
theorem c5_clear_resets (s : SessionState) :
    (clearTransition s).code_input = "" ∧
    (clearTransition s).last_debug_result = none ∧
    (clearTransition s).last_language = s.last_language :=
  ⟨rfl, rfl, rfl⟩

/-- Claim C7: the load-example transition puts the snippet of the selected
language into the buffer when the table has one, the fixed placeholder
otherwise, and drops the stored outcome. -/
theorem c7_load_example (s : SessionState) :
    ((∃ ex, EXAMPLE_CODE s.last_language = some ex ∧ (exampleTransition s).code_input = ex) ∨
      (EXAMPLE_CODE s.last_language = none ∧ (exampleTransition s).code_input = noExampleText)) ∧
    (exampleTransition s).last_debug_result = none ∧
    (exampleTransition s).last_language = s.last_language := by
  refine ⟨?_, rfl, rfl⟩
  cases hE : EXAMPLE_CODE s.last_language with
  | none => exact Or.inr ⟨rfl, by simp [exampleTransition, hE]⟩
  | some ex => exact Or.inl ⟨ex, rfl, by simp [exampleTransition, hE]⟩

/-- Claim C8: every call of debug_code issues exactly one request to the
Piston URL whose payload holds the language, the version, the source as
the single file entry, empty stdin, no args, compile timeout 10000, run
timeout 3000, memory limits -1, under a 15 second network timeout. -/
theorem c8_request_shape (l v c : String) (o : HttpOutcome) :
    (debug_code l v c o).request =
      { url := PISTON_URL,
        payload := { language := l, version := v, files := [{ content := c }],
                     stdin := "", args := [], compile_timeout := 10000, run_timeout := 3000,
                     compile_memory_limit := -1, run_memory_limit := -1 },
        timeoutSeconds := 15 } := by
  cases o <;> rfl

/-- Claim C9: debug_code is total with an optional result: on every
outcome of the HTTP call it returns either the parsed body or none, never
raising to its caller. -/
theorem c9_total_optional (l v c : String) (o : HttpOutcome) :
    (∃ b, o = HttpOutcome.ok b ∧ (debug_code l v c o).result = some b) ∨
      (debug_code l v c o).result = none := by
  cases o with
  | ok b => exact Or.inl ⟨b, rfl, rfl⟩
  | timeoutExc => exact Or.inr rfl
  | requestExc e api => exact Or.inr rfl
  | otherExc e => exact Or.inr rfl

/-- Claim C2 counterexample: two different failures (a timeout and an
unexpected exception) make debug_code return the same value None, so the
caller cannot tell from the returned value which failure occurred. -/
theorem c2_counterexample :
    (debug_code "python" "*" "x" HttpOutcome.timeoutExc).result = none ∧
    (debug_code "python" "*" "x" (HttpOutcome.otherExc "boom")).result = none ∧
    (debug_code "python" "*" "x" HttpOutcome.timeoutExc).result =
      (debug_code "python" "*" "x" (HttpOutcome.otherExc "boom")).result :=
  ⟨rfl, rfl, rfl⟩

/-- Claim C2 (amended): debug_code returns the parsed body on success and
None on every failure; the failure class is reported only through the
banner it shows — the fixed timeout text, the transport text with the
optional API message appended, or the unexpected-error text — and those
three banner shapes are pairwise distinct. -/
theorem c2_failure_reporting (l v c : String) :
    (∀ b, (debug_code l v c (HttpOutcome.ok b)).result = some b ∧
      (debug_code l v c (HttpOutcome.ok b)).errorShown = none) ∧
    ((debug_code l v c HttpOutcome.timeoutExc).result = none ∧
      (debug_code l v c HttpOutcome.timeoutExc).errorShown = some timeoutBanner) ∧
    (∀ e api, (debug_code l v c (HttpOutcome.requestExc e api)).result = none ∧
      (debug_code l v c (HttpOutcome.requestExc e api)).errorShown = some (transportBanner e api)) ∧
    (∀ e, (debug_code l v c (HttpOutcome.otherExc e)).result = none ∧
      (debug_code l v c (HttpOutcome.otherExc e)).errorShown = some (unexpectedBanner e)) ∧
    (∀ e api, timeoutBanner ≠ transportBanner e api) ∧
    (∀ e api f, transportBanner e api ≠ unexpectedBanner f) ∧
    (∀ e, timeoutBanner ≠ unexpectedBanner e) :=
  ⟨fun _ => ⟨rfl, rfl⟩, ⟨rfl, rfl⟩, fun _ _ => ⟨rfl, rfl⟩, fun _ => ⟨rfl, rfl⟩,
    timeout_ne_transport, fun e api f => transport_ne_unexpected e api f, timeout_ne_unexpected⟩

/-- Claim C3 counterexample: a timed-out submit stores None, so the view
derived from the resulting state equals the neutral prompt view rendered
for a missing outcome — not a distinct error rendering. -/
theorem c3_counterexample :
    (submitTransition (SessionState.mk "python" "print(1)" none none)
        HttpOutcome.timeoutExc).state.last_debug_result = none ∧
    deriveView (submitTransition (SessionState.mk "python" "print(1)" none none)
        HttpOutcome.timeoutExc).state.last_debug_result = deriveView none :=
  ⟨rfl, rfl⟩

/-- Claim C3 (amended): after a failing submit the stored outcome is None
and the state-derived view is the neutral prompt; the failure surfaces
only through the transient banner of that run, which carries the
class-specific message (fixed timeout text, transport text with the
optional API message appended — always distinct from the timeout text —
or the unexpected text). -/
theorem c3_failure_surfacing (s : SessionState) (o : HttpOutcome)
    (hb : strippedEmpty s.code_input = false) (hf : isFailure o = true) :
    (submitTransition s o).state.last_debug_result = none ∧
    deriveView (submitTransition s o).state.last_debug_result = deriveView none ∧
    (submitTransition s o).errorBanner = (debug_code s.last_language "*" s.code_input o).errorShown ∧
    (o = HttpOutcome.timeoutExc → (submitTransition s o).errorBanner = some timeoutBanner) ∧
    (∀ e api, o = HttpOutcome.requestExc e api →
      (submitTransition s o).errorBanner = some (transportBanner e api)) ∧
    (∀ e, o = HttpOutcome.otherExc e →
      (submitTransition s o).errorBanner = some (unexpectedBanner e)) ∧
    (∀ e api, timeoutBanner ≠ transportBanner e api) := by
  rw [submit_nonblank s o hb]
  cases o with
  | ok b => exact Bool.noConfusion hf
  | timeoutExc =>
      exact ⟨rfl, rfl, rfl, fun _ => rfl, fun e api hco => HttpOutcome.noConfusion hco,
        fun e hco => HttpOutcome.noConfusion hco, timeout_ne_transport⟩
  | requestExc e0 api0 =>
      refine ⟨rfl, rfl, rfl, fun hco => HttpOutcome.noConfusion hco, fun e api hco => ?_,
        fun e hco => HttpOutcome.noConfusion hco, timeout_ne_transport⟩
      injection hco with h1 h2
      rw [h1, h2]
      rfl
  | otherExc e0 =>
      refine ⟨rfl, rfl, rfl, fun hco => HttpOutcome.noConfusion hco,
        fun e api hco => HttpOutcome.noConfusion hco, fun e hco => ?_, timeout_ne_transport⟩
      injection hco with h1
      rw [h1]
      rfl

/-- Claim C3 witness: a concrete blocked-network submit. -/
theorem c3_failure_surfacing_witness :
    strippedEmpty (SessionState.mk "python" "print(1)" none none).code_input = false ∧
    isFailure HttpOutcome.timeoutExc = true ∧
    (submitTransition (SessionState.mk "python" "print(1)" none none)
        HttpOutcome.timeoutExc).errorBanner = some timeoutBanner :=
  ⟨by decide, rfl,
    (c3_failure_surfacing (SessionState.mk "python" "print(1)" none none)
      HttpOutcome.timeoutExc (by decide) rfl).2.2.2.1 rfl⟩

/-- Claim C4: a submit on a blank (empty or whitespace-only) buffer never
calls the client, shows only the transient toast warning, and leaves the
whole session state unchanged. -/
theorem c4_blank_submit (s : SessionState) (o : HttpOutcome)
    (h : strippedEmpty s.code_input = true) :
    (submitTransition s o).clientCalled = false ∧
    (submitTransition s o).toast = some warnToast ∧
    (submitTransition s o).errorBanner = none ∧
    (submitTransition s o).state = s := by
  rw [submit_blank s o h]
  exact ⟨rfl, rfl, rfl, rfl⟩

/-- Claim C4 witness: a concrete whitespace-only buffer. -/
theorem c4_blank_submit_witness :
    strippedEmpty (SessionState.mk "python" "  \n\t " none none).code_input = true ∧
    (submitTransition (SessionState.mk "python" "  \n\t " none none)
        HttpOutcome.timeoutExc).state = SessionState.mk "python" "  \n\t " none none :=
  ⟨by decide,
    (c4_blank_submit (SessionState.mk "python" "  \n\t " none none)
      HttpOutcome.timeoutExc (by decide)).2.2.2⟩

/-- Claim C6: a submit on a non-blank buffer stores the value returned by
debug_code as the outcome and stamps it with the language selected at
submit time; in particular loading an example and then changing the
selected language before submitting attributes the outcome to the newly
selected language. -/
theorem c6_submit_attribution (s : SessionState) (o : HttpOutcome) (lang : String)
    (h : strippedEmpty s.code_input = false) :
    ((submitTransition s o).state.last_debug_result =
        (debug_code s.last_language "*" s.code_input o).result ∧
      (submitTransition s o).state.last_language_run = some s.last_language) ∧
    ((submitTransition (selectLanguage (exampleTransition s) lang) o).clientCalled = true ∧
      (submitTransition (selectLanguage (exampleTransition s) lang) o).state.last_language_run =
        some lang ∧
      (submitTransition (selectLanguage (exampleTransition s) lang) o).state.last_debug_result =
        (debug_code lang "*" (exampleTransition s).code_input o).result) := by
  have hex : strippedEmpty (selectLanguage (exampleTransition s) lang).code_input = false :=
    exampleBuffer_not_blank s.last_language
  rw [submit_nonblank s o h, submit_nonblank (selectLanguage (exampleTransition s) lang) o hex]
  exact ⟨⟨rfl, rfl⟩, rfl, rfl, rfl⟩

/-- Claim C6 witness: load the python example, switch the selector to go,
submit: the outcome is attributed to go. -/
theorem c6_submit_attribution_witness :
    strippedEmpty (SessionState.mk "python" "print(1)" none none).code_input = false ∧
    (submitTransition
        (selectLanguage (exampleTransition (SessionState.mk "python" "print(1)" none none)) "go")
        HttpOutcome.timeoutExc).state.last_language_run = some "go" :=
  ⟨by decide,
    (c6_submit_attribution (SessionState.mk "python" "print(1)" none none)
      HttpOutcome.timeoutExc "go" (by decide)).2.2.1⟩

/-- Claim C10: whenever a stage section is rendered, its exit-code line is
the neutral caption exactly when the exit code is present and 0; otherwise
it is the warning line (compile stage) or the error line (run stage),
carrying the displayed code. -/
theorem c10_exit_lines (r : PistonResponse) :
    (∀ cs, (deriveView (some r)).compileSection = some cs →
      cs.exitLine = if stageCode r.compile = some 0 then
          ExitLine.captionLine (stageCode r.compile)
        else
          ExitLine.warningLine (stageCode r.compile)) ∧
    (∀ rs, (deriveView (some r)).runSection = some rs →
      rs.exitLine = if stageCode r.run = some 0 then
          ExitLine.captionLine (stageCode r.run)
        else
          ExitLine.errorLine (stageCode r.run)) := by
  constructor
  · intro cs hcs
    have h2 : compileSectionOf r = some cs := hcs
    unfold compileSectionOf at h2
    by_cases hout : hasOutput r.compile = true
    · rw [if_pos hout] at h2
      injection h2 with h3
      rw [← h3]
    · rw [if_neg hout] at h2
      exact Option.noConfusion h2
  · intro rs hrs
    have h2 : runSectionOf r = some rs := hrs
    unfold runSectionOf at h2
    by_cases hout : hasOutput r.run = true
    · rw [if_pos hout] at h2
      injection h2 with h3
      rw [← h3]
    · rw [if_neg hout] at h2
      exact Option.noConfusion h2

/-- Claim C10 witness: a response rendering both sections, with a warning
line for the nonzero compile code and a caption for the zero run code. -/
theorem c10_exit_lines_witness :
    (deriveView (some c10resp)).compileSection =
      some (StageSection.mk true (some "warn") none (ExitLine.warningLine (some 1))) ∧
    (StageSection.mk true (some "warn") none (ExitLine.warningLine (some 1))).exitLine =
      (if stageCode c10resp.compile = some 0 then ExitLine.captionLine (stageCode c10resp.compile)
       else ExitLine.warningLine (stageCode c10resp.compile)) ∧
    (deriveView (some c10resp)).runSection =
      some (StageSection.mk true (some "out") none (ExitLine.captionLine (some 0))) ∧
    (StageSection.mk true (some "out") none (ExitLine.captionLine (some 0))).exitLine =
      (if stageCode c10resp.run = some 0 then ExitLine.captionLine (stageCode c10resp.run)
       else ExitLine.errorLine (stageCode c10resp.run)) :=
  ⟨rfl,
    (c10_exit_lines c10resp).1
      (StageSection.mk true (some "warn") none (ExitLine.warningLine (some 1))) rfl,
    rfl,
    (c10_exit_lines c10resp).2
      (StageSection.mk true (some "out") none (ExitLine.captionLine (some 0))) rfl⟩
